import Mathlib

/-!
Shallow embedding of the task-manager backend's permission-aware mutation
engine (Flask API endpoints in `app/api/tasks.py`, `app/api/projects.py`,
`app/api/tags.py`, the decorator in `app/utils/decorators.py`, and the
broadcast service in `app/services/realtime_service.py`).

Entity identifiers (UUIDs in the source) are modelled as `Nat`; UTC
timestamps as `Nat`; the database session as an explicit `DB` record.
Each endpoint becomes a pure function `DB → args → Except Err DB`:
`.ok db'` models a committed transaction, `.error e` models a request that
aborted before commit (an early `error_response` / `abort`), whose pending
session writes are discarded — `commitOr` gives the resulting store state.
-/

namespace TaskApp

/-- `TaskStatus` enum from `app/models/task.py`. -/
inductive TaskStatus
  | todo
  | in_progress
  | review
  | done
deriving DecidableEq, Repr

/-- `.value` of the Python enum member. -/
def TaskStatus.value : TaskStatus → String
  | .todo => "todo"
  | .in_progress => "in_progress"
  | .review => "review"
  | .done => "done"

/-- `str()` of the Python enum member, as produced by `str(old_value)` in
`update_task`'s change tracking. -/
def TaskStatus.pyStr : TaskStatus → String
  | .todo => "TaskStatus.TODO"
  | .in_progress => "TaskStatus.IN_PROGRESS"
  | .review => "TaskStatus.REVIEW"
  | .done => "TaskStatus.DONE"

/-- `TaskPriority` enum from `app/models/task.py`. -/
inductive TaskPriority
  | low
  | medium
  | high
  | urgent
deriving DecidableEq, Repr

/-- `str()` of the Python enum member. -/
def TaskPriority.pyStr : TaskPriority → String
  | .low => "TaskPriority.LOW"
  | .medium => "TaskPriority.MEDIUM"
  | .high => "TaskPriority.HIGH"
  | .urgent => "TaskPriority.URGENT"

/-- `MemberRole` enum from `app/models/project_member.py`. -/
inductive MemberRole
  | viewer
  | member
  | admin
deriving DecidableEq, Repr

/-- `ActivityAction` enum from `app/models/activity_log.py`. -/
inductive ActivityAction
  | created
  | updated
  | deleted
  | completed
  | commented
  | assigned
  | status_changed
  | member_added
  | member_removed
deriving DecidableEq, Repr

/-- Row of the `users` table (only the columns the embedded operations read). -/
structure User where
  id : Nat
  username : String
deriving DecidableEq, Repr

/-- Row of the `projects` table (`app/models/project.py`). -/
structure Project where
  id : Nat
  ownerId : Nat
  isArchived : Bool
deriving DecidableEq, Repr

/-- Row of the `project_members` junction table (`app/models/project_member.py`). -/
structure ProjectMember where
  projectId : Nat
  userId : Nat
  role : MemberRole
deriving DecidableEq, Repr

/-- Row of the `tasks` table (`app/models/task.py`); `completedAt = none`
models a NULL `completed_at` column. -/
structure Task where
  id : Nat
  title : String
  description : Option String
  projectId : Nat
  creatorId : Nat
  assigneeId : Option Nat
  status : TaskStatus
  priority : TaskPriority
  completedAt : Option Nat
deriving DecidableEq, Repr

/-- Row of the `tags` table (`app/models/tag.py`); `projectId = none` is a
global tag. -/
structure Tag where
  id : Nat
  name : String
  projectId : Option Nat
deriving DecidableEq, Repr

/-- Row of the `task_tags` junction table (`app/models/task_tag.py`). -/
structure TaskTag where
  taskId : Nat
  tagId : Nat
deriving DecidableEq, Repr

/-- The `details` JSON payload passed to `ActivityLog.log_activity`, one
constructor per call-site shape in the API modules. -/
inductive LogDetails
  | taskTitle (title : String)
  | taskDeleted (title : String) (taskId : String)
  | changeMap (cs : List (String × String × String))
  | statusChange (oldStatus newStatus : String)
  | assignment (assigneeUsername : String) (oldAssigneeId : Option String)
deriving DecidableEq, Repr

/-- Row of the `activity_logs` table (`app/models/activity_log.py`). -/
structure LogEntry where
  userId : Nat
  projectId : Nat
  taskId : Option Nat
  action : ActivityAction
  details : LogDetails
deriving DecidableEq, Repr

/-- A pub/sub channel (`websocket_config`): `project:<id>` or `user:<id>`. -/
inductive Channel
  | projectChan (pid : Nat)
  | userChan (uid : Nat)
deriving DecidableEq, Repr

/-- An event emitted over the pub/sub layer. -/
structure BEvent where
  channel : Channel
  eventType : String
deriving DecidableEq, Repr

/-- The persistent store plus the stream of emitted broadcast events. -/
structure DB where
  users : List User
  projects : List Project
  members : List ProjectMember
  tasks : List Task
  tags : List Tag
  taskTags : List TaskTag
  log : List LogEntry
  broadcasts : List BEvent
deriving DecidableEq, Repr

/-- Error kinds, one per distinct `error_response` / `abort(404)` call site
reachable in the embedded operations, plus `nameError`: tasks.py references
`ProjectMember` (and `MemberRole`) but its models import (tasks.py:8) lists
neither name, so every evaluation of a membership lookup in that module
raises an uncaught Python `NameError` — an HTTP 500 thrown outside the
endpoint's try block, before `db.session.commit()`, hence with no persisted
mutation.  (projects.py, tags.py and decorators.py import both names
correctly, so their lookups work.) -/
inductive Err
  | notFound
  | accessDenied
  | alreadyMember
  | cannotAddOwner
  | cannotRemoveOwner
  | notAMember
  | invalidAssignee
  | tagScopeMismatch
  | duplicateTagName
  | nameError
deriving DecidableEq, Repr

/-- `Task.query.get(id)` / `get_or_404(Task, id)` lookup. -/
def findTask (db : DB) (tid : Nat) : Option Task :=
  db.tasks.find? (fun t => t.id == tid)

/-- `Project.query.get(id)` / `get_or_404(Project, id)` lookup. -/
def findProject (db : DB) (pid : Nat) : Option Project :=
  db.projects.find? (fun p => p.id == pid)

/-- `User.query.get(id)` / `get_or_404(User, id)` lookup. -/
def findUser (db : DB) (uid : Nat) : Option User :=
  db.users.find? (fun u => u.id == uid)

/-- `Tag.query.get(id)` / `get_or_404(Tag, id)` lookup. -/
def findTag (db : DB) (tid : Nat) : Option Tag :=
  db.tags.find? (fun t => t.id == tid)

/-- `ProjectMember.query.filter_by(project_id=…, user_id=…).first()`. -/
def memberLookup (db : DB) (pid uid : Nat) : Option ProjectMember :=
  db.members.find? (fun m => m.projectId == pid && m.userId == uid)

/-- The store state a request leaves behind: a committed transaction's new
state, or — for a request aborted before `db.session.commit()` — the
unchanged original state. -/
def commitOr (db : DB) : Except Err DB → DB
  | .ok db' => db'
  | .error _ => db

/-- Whether an endpoint call returned a success response. -/
def resultOk : Except Err DB → Bool
  | .ok _ => true
  | .error _ => false

/-- The access check of `add_tag_to_task` / `remove_tag_from_task`
(tags.py:253-259, a module whose imports are intact): denied when the actor
is not the project owner and is not a member, or is a viewer-role member
(`if not member or member.role.value == 'viewer'`). -/
def taskEditDenied (db : DB) (project : Project) (actorId : Nat) : Bool :=
  project.ownerId != actorId &&
    (match memberLookup db project.id actorId with
     | none => true
     | some m => m.role == MemberRole.viewer)

/-- The access-check block of every tasks.py endpoint
(`if project.owner_id != current_user.id: member = ProjectMember.query…`):
the owner short-circuits past it, but for any other actor the block's first
statement evaluates the unimported name `ProjectMember` and raises
`NameError`, so the request dies with a 500 before any role is examined and
before any session write. -/
def tasksModuleAccess (project : Project) (actorId : Nat) : Except Err Unit :=
  if project.ownerId != actorId then .error .nameError else .ok ()

/-- `role_hierarchy` dict in `permission_required` (decorators.py). -/
def roleRank : MemberRole → Nat
  | .viewer => 1
  | .member => 2
  | .admin => 3

/-- `role_hierarchy.get(permission_level, 2)` in `permission_required`. -/
def requiredRank (permissionLevel : String) : Nat :=
  if permissionLevel == "viewer" then 1
  else if permissionLevel == "member" then 2
  else if permissionLevel == "admin" then 3
  else 2

/-- The `permission_required(level)` decorator (decorators.py): owner passes
immediately; otherwise the membership row is looked up, absence denies, and
finally the role ranks are compared. -/
def permission_check (db : DB) (permissionLevel : String) (actorId pid : Nat) :
    Except Err Project :=
  match findProject db pid with
  | none => .error .notFound
  | some project =>
    if project.ownerId == actorId then .ok project
    else
      match memberLookup db pid actorId with
      | none => .error .accessDenied
      | some membership =>
        if roleRank membership.role < requiredRank permissionLevel then
          .error .accessDenied
        else .ok project

/-- Effective role of an actor in a project, per §4.1 of the spec and the
decision structure of `permission_required`: identity with `owner_id` short
circuits to owner; otherwise the membership row (or its absence) decides. -/
inductive EffRole
  | owner
  | admin
  | member
  | viewer
  | noRole
deriving DecidableEq, Repr

/-- `resolve_role(actor, project)` as implemented by the access-check logic:
owner iff `project.owner_id == actor.id`, else the `ProjectMember` row's
role, else none. -/
def resolve_role (db : DB) (actorId : Nat) (project : Project) : EffRole :=
  if project.ownerId == actorId then .owner
  else
    match memberLookup db project.id actorId with
    | none => .noRole
    | some m =>
      match m.role with
      | .admin => .admin
      | .member => .member
      | .viewer => .viewer

/-- `broadcast_to_project` (websocket_config.py): emit on `project:<id>`. -/
def broadcast_to_project (db : DB) (pid : Nat) (eventType : String) : DB :=
  { db with broadcasts := db.broadcasts ++ [⟨Channel.projectChan pid, eventType⟩] }

/-- `broadcast_to_user` (websocket_config.py): emit on `user:<id>`. -/
def broadcast_to_user (db : DB) (uid : Nat) (eventType : String) : DB :=
  { db with broadcasts := db.broadcasts ++ [⟨Channel.userChan uid, eventType⟩] }

/-- `RealTimeService.broadcast_task_status_change` (realtime_service.py):
emits a `task_status_changed` event to the project channel.  Note: no API
endpoint in the source ever invokes this service. -/
def broadcast_task_status_change (db : DB) (pid : Nat) : DB :=
  broadcast_to_project db pid "task_status_changed"

/-- `str()` of a nullable string column. -/
def optStr : Option String → String
  | none => "None"
  | some s => s

/-- `str()` of a nullable id column. -/
def optIdStr : Option Nat → String
  | none => "None"
  | some i => toString i

/-- The JSON body accepted by `TaskCreateSchema`.  `status` and `priority`
carry the schema defaults applied by `create_task` (`todo` / `medium`). -/
structure TaskCreatePayload where
  title : String
  description : Option String := none
  projectId : Nat
  assigneeId : Option Nat := none
  status : TaskStatus := .todo
  priority : TaskPriority := .medium
  tagIds : List Nat := []
deriving DecidableEq, Repr

/-- The JSON body accepted by `TaskUpdateSchema`: each field is absent or
present (and `assigneeId` may be present-and-null). -/
structure TaskUpdatePayload where
  title : Option String := none
  description : Option String := none
  assigneeId : Option (Option Nat) := none
  status : Option TaskStatus := none
  priority : Option TaskPriority := none
  tagIds : Option (List Nat) := none
deriving DecidableEq, Repr

/-- The tag-attachment loop of `create_task` / `update_task` (tasks.py):
each requested id is fetched with `get_or_404(Tag, …)` (a missing tag aborts
the whole request) and a `TaskTag` row is added unconditionally — no scope
check and no duplicate check on these paths. -/
def attachAll (tags : List Tag) (taskId : Nat) : List Nat → Except Err (List TaskTag)
  | [] => .ok []
  | tid :: rest =>
    match tags.find? (fun tg => tg.id == tid) with
    | none => .error .notFound
    | some _ =>
      match attachAll tags taskId rest with
      | .error e => .error e
      | .ok rows => .ok (⟨taskId, tid⟩ :: rows)

/-- POST `/api/tasks` — `create_task` (tasks.py).  `newTaskId` stands for the
id the store assigns at `db.session.flush()`.  A non-owner actor — whatever
membership row they hold — hits the `NameError` at tasks.py:91 before
anything is written. -/
def create_task (db : DB) (actorId : Nat) (p : TaskCreatePayload) (newTaskId : Nat) :
    Except Err DB :=
  match findProject db p.projectId with
  | none => .error .notFound
  | some project =>
    match tasksModuleAccess project actorId with
    | .error e => .error e
    | .ok _ =>
      let task : Task :=
        ⟨newTaskId, p.title, p.description, p.projectId, actorId, p.assigneeId,
         p.status, p.priority, none⟩
      match attachAll db.tags newTaskId p.tagIds with
      | .error e => .error e
      | .ok newRows =>
        let entry : LogEntry :=
          ⟨actorId, project.id, some task.id, .created, .taskTitle task.title⟩
        .ok { db with
                tasks := db.tasks ++ [task],
                taskTags := db.taskTags ++ newRows,
                log := db.log ++ [entry] }

/-- One step of `update_task`'s field loop: if the field is present in the
payload and differs from the current value, record `{field: {old, new}}` and
set the attribute. -/
def diffField {α : Type} (fieldName : String) (oldVal : α) (newVal : Option α)
    (toS : α → String) (setF : α → Task) (st : Task × List (String × String × String))
    [DecidableEq α] : Task × List (String × String × String) :=
  match newVal with
  | none => st
  | some v =>
    if oldVal ≠ v then (setF v, st.2 ++ [(fieldName, toS oldVal, toS v)])
    else st

/-- PUT `/api/tasks/<id>` — `update_task` (tasks.py): only the owner gets
past the broken access check (tasks.py:193 references the unimported
`ProjectMember`); then diff the mutable fields, replace the tag set when
`tag_ids` is present, set `completed_at` when the status change map records
a new value of `TaskStatus.DONE` (and only then — leaving `done` does not
touch `completed_at` on this path), and log a single `updated` entry when
anything changed. -/
def update_task (db : DB) (actorId tid : Nat) (p : TaskUpdatePayload) (now : Nat) :
    Except Err DB :=
  match findTask db tid with
  | none => .error .notFound
  | some task =>
    match findProject db task.projectId with
    | none => .error .notFound
    | some project =>
      match tasksModuleAccess project actorId with
      | .error e => .error e
      | .ok _ =>
        let s0 : Task × List (String × String × String) := (task, [])
        let s1 := diffField "title" task.title p.title (fun s => s)
          (fun v => { s0.1 with title := v }) s0
        let s2 := diffField "description" task.description
          (p.description.map some) optStr (fun v => { s1.1 with description := v }) s1
        let s3 := diffField "assignee_id" task.assigneeId p.assigneeId optIdStr
          (fun v => { s2.1 with assigneeId := v }) s2
        let s4 := diffField "status" task.status p.status TaskStatus.pyStr
          (fun v => { s3.1 with status := v }) s3
        let s5 := diffField "priority" task.priority p.priority TaskPriority.pyStr
          (fun v => { s4.1 with priority := v }) s4
        let task1 := s5.1
        let changes := s5.2
        let tagStep : Except Err (List TaskTag) :=
          match p.tagIds with
          | none => .ok db.taskTags
          | some ids =>
            match attachAll db.tags tid ids with
            | .error e => .error e
            | .ok newRows =>
              .ok (db.taskTags.filter (fun tt : TaskTag => tt.taskId != tid) ++ newRows)
        match tagStep with
        | .error e => .error e
        | .ok taskTagsNew =>
          let task2 :=
            match changes.find? (fun c : String × String × String => c.1 == "status") with
            | some c =>
              if c.2.2 == "TaskStatus.DONE" then { task1 with completedAt := some now }
              else task1
            | none => task1
          let entry : LogEntry :=
            ⟨actorId, project.id, some task.id, .updated, .changeMap changes⟩
          let logNew :=
            if changes.isEmpty then db.log
            else db.log ++ [entry]
          .ok { db with
                  tasks := db.tasks.map (fun t : Task => if t.id == tid then task2 else t),
                  taskTags := taskTagsNew,
                  log := logNew }

/-- PUT `/api/tasks/<id>/status` — `update_task_status` (tasks.py): a
non-owner actor crashes with `NameError` at tasks.py:316 (the access block
was written as owner-or-any-member, but the membership lookup's name is
unbound); the owner proceeds: sets the status; sets `completed_at` when the
new status is `done`, clears it when the old status was `done`; logs a
`status_changed` entry with the old/new `.value` strings.  No broadcast is
emitted. -/
def update_task_status (db : DB) (actorId tid : Nat) (newStatus : TaskStatus)
    (now : Nat) : Except Err DB :=
  match findTask db tid with
  | none => .error .notFound
  | some task =>
    match findProject db task.projectId with
    | none => .error .notFound
    | some project =>
      match tasksModuleAccess project actorId with
      | .error e => .error e
      | .ok _ =>
        let oldStatus := task.status
        let task1 :=
          { task with
              status := newStatus,
              completedAt :=
                if newStatus == TaskStatus.done then some now
                else if oldStatus == TaskStatus.done then none
                else task.completedAt }
        let entry : LogEntry :=
          ⟨actorId, project.id, some task.id, .status_changed,
           .statusChange oldStatus.value newStatus.value⟩
        .ok { db with
                tasks := db.tasks.map (fun t => if t.id == tid then task1 else t),
                log := db.log ++ [entry] }

/-- PUT `/api/tasks/<id>/assign` — `assign_task` (tasks.py): a non-owner
actor crashes with `NameError` at the access block (tasks.py:377); then the
assignee is fetched with `get_or_404(User, …)`, and for every assignee
other than the owner the membership check at tasks.py:387 evaluates the
unimported `ProjectMember` and crashes too — so the invalid-assignee
`error_response` at tasks.py:392 is unreachable, and the only completable
assignment is the owner assigning the task to the owner. -/
def assign_task (db : DB) (actorId tid assigneeId : Nat) : Except Err DB :=
  match findTask db tid with
  | none => .error .notFound
  | some task =>
    match findProject db task.projectId with
    | none => .error .notFound
    | some project =>
      match tasksModuleAccess project actorId with
      | .error e => .error e
      | .ok _ =>
        match findUser db assigneeId with
        | none => .error .notFound
        | some assignee =>
          match tasksModuleAccess project assigneeId with
          | .error e => .error e
          | .ok _ =>
            let task1 := { task with assigneeId := some assigneeId }
            let entry : LogEntry :=
              ⟨actorId, project.id, some task.id, .assigned,
               .assignment assignee.username (task.assigneeId.map toString)⟩
            .ok { db with
                    tasks := db.tasks.map (fun t => if t.id == tid then task1 else t),
                    log := db.log ++ [entry] }

/-- POST `/api/tasks/<id>/complete` — `complete_task` (tasks.py): a
non-owner actor crashes with `NameError` at tasks.py:437; for the owner,
`task.mark_complete()` sets status to `done` and `completed_at` to now, and
a `completed` entry is logged. -/
def complete_task (db : DB) (actorId tid : Nat) (now : Nat) : Except Err DB :=
  match findTask db tid with
  | none => .error .notFound
  | some task =>
    match findProject db task.projectId with
    | none => .error .notFound
    | some project =>
      match tasksModuleAccess project actorId with
      | .error e => .error e
      | .ok _ =>
        let task1 := { task with status := TaskStatus.done, completedAt := some now }
        let entry : LogEntry :=
          ⟨actorId, project.id, some task.id, .completed, .taskTitle task.title⟩
        .ok { db with
                tasks := db.tasks.map (fun t => if t.id == tid then task1 else t),
                log := db.log ++ [entry] }

/-- The loop body of `add_tag_to_task` (tags.py): fetch each tag (404 on a
missing id), fail with the scope error when the tag is project-scoped to a
different project, and otherwise add the junction row unless it already
exists.  `acc` plays the role of the session-visible `task_tags` table. -/
def addTagsLoop (tags : List Tag) (projectId taskId : Nat) :
    List Nat → List TaskTag → Except Err (List TaskTag)
  | [], acc => .ok acc
  | tid :: rest, acc =>
    match tags.find? (fun tg => tg.id == tid) with
    | none => .error .notFound
    | some tag =>
      if (match tag.projectId with
          | some p => p != projectId
          | none => false) then
        .error .tagScopeMismatch
      else
        let acc1 :=
          if acc.any (fun tt => tt.taskId == taskId && tt.tagId == tid) then acc
          else acc ++ [⟨taskId, tid⟩]
        addTagsLoop tags projectId taskId rest acc1

/-- POST `/api/tags/tasks/<id>/tags` — `add_tag_to_task` (tags.py): the only
path that checks tag scope; duplicates are silently skipped; no activity log
entry and no broadcast. -/
def add_tag_to_task (db : DB) (actorId taskId : Nat) (tagIds : List Nat) :
    Except Err DB :=
  match findTask db taskId with
  | none => .error .notFound
  | some task =>
    match findProject db task.projectId with
    | none => .error .notFound
    | some project =>
      if taskEditDenied db project actorId then .error .accessDenied
      else
        match addTagsLoop db.tags project.id taskId tagIds db.taskTags with
        | .error e => .error e
        | .ok rows => .ok { db with taskTags := rows }

/-- POST `/api/projects/<id>/members` — `add_project_member` (projects.py),
behind `permission_required('admin')`: 404 on a missing user, then the
already-a-member check, then the cannot-add-owner check (in that order),
then the row is inserted.  No activity log entry and no broadcast. -/
def add_project_member (db : DB) (actorId pid uid : Nat) (role : MemberRole) :
    Except Err DB :=
  match permission_check db "admin" actorId pid with
  | .error e => .error e
  | .ok project =>
    match findUser db uid with
    | none => .error .notFound
    | some _ =>
      if (memberLookup db pid uid).isSome then .error .alreadyMember
      else if project.ownerId == uid then .error .cannotAddOwner
      else .ok { db with members := db.members ++ [⟨pid, uid, role⟩] }

/-- PUT `/api/projects/<id>/members/<uid>` — `update_member_role`
(projects.py), behind `permission_required('admin')`: 404 when no membership
row exists, else the row's role is replaced. -/
def update_member_role (db : DB) (actorId pid uid : Nat) (newRole : MemberRole) :
    Except Err DB :=
  match permission_check db "admin" actorId pid with
  | .error e => .error e
  | .ok _ =>
    match memberLookup db pid uid with
    | none => .error .notAMember
    | some _ =>
      .ok { db with
              members := db.members.map (fun m =>
                if m.projectId == pid && m.userId == uid then
                  { m with role := newRole }
                else m) }

/-- DELETE `/api/projects/<id>/members/<uid>` — `remove_project_member`
(projects.py), behind `permission_required('admin')`: the cannot-remove-owner
check comes first (before the membership lookup), then 404 when no row
exists, else the row is deleted.  No activity log entry. -/
def remove_project_member (db : DB) (actorId pid uid : Nat) : Except Err DB :=
  match permission_check db "admin" actorId pid with
  | .error e => .error e
  | .ok project =>
    if project.ownerId == uid then .error .cannotRemoveOwner
    else
      match memberLookup db pid uid with
      | none => .error .notAMember
      | some _ =>
        .ok { db with
                members := db.members.filter (fun m =>
                  !(m.projectId == pid && m.userId == uid)) }

/-- The owner-is-never-a-member invariant for one project: no membership row
pairs the project with its owner. -/
def ownerAbsent (db : DB) (pid ownerId : Nat) : Bool :=
  !(db.members.any (fun m => m.projectId == pid && m.userId == ownerId))

/-- A concrete store: alice (10) owns project 1 with bob (20) a viewer and
carol (30) a member; dave (40) has no membership anywhere.  Task 1 is done
with `completed_at = 5` and carries tag 5, which is scoped to the *other*
project 2; task 2 is todo and carries the global tag 6. -/
def exA : DB :=
  { users := [⟨10, "alice"⟩, ⟨20, "bob"⟩, ⟨30, "carol"⟩, ⟨40, "dave"⟩],
    projects := [⟨1, 10, false⟩, ⟨2, 30, false⟩],
    members := [⟨1, 20, .viewer⟩, ⟨1, 30, .member⟩],
    tasks := [⟨1, "t", none, 1, 10, none, .done, .medium, some 5⟩,
              ⟨2, "u", none, 1, 10, none, .todo, .medium, none⟩],
    tags := [⟨5, "bug", some 2⟩, ⟨6, "chore", none⟩],
    taskTags := [⟨1, 5⟩, ⟨2, 6⟩],
    log := [],
    broadcasts := [] }

/-- The payload `{"status": "todo"}` for PUT `/api/tasks/<id>`. -/
def statusTodoPayload : TaskUpdatePayload :=
  ⟨none, none, none, some .todo, none, none⟩

theorem find_of_replace {l : List Task} {tid : Nat} {task task1 : Task}
    (h : l.find? (fun t => t.id == tid) = some task) (hid : task1.id = task.id) :
    (l.map (fun t => if t.id == tid then task1 else t)).find? (fun t => t.id == tid)
      = some task1 := by
  induction l with
  | nil => simp at h
  | cons a l ih =>
    cases ha : (a.id == tid) with
    | true =>
      simp only [List.find?, ha] at h
      have hat : a = task := by injection h
      have h1 : (task1.id == tid) = true := by rw [hid, ← hat]; exact ha
      simp [List.find?, ha, h1]
    | false =>
      simp only [List.find?, ha] at h
      simp only [List.map_cons, List.find?, ha, Bool.false_eq_true, if_false]
      exact ih h

theorem find_of_append_none {α : Type} (p : α → Bool) {l1 : List α} (l2 : List α)
    (h : l1.find? p = none) : (l1 ++ l2).find? p = l2.find? p := by
  induction l1 with
  | nil => simp
  | cons a l ih =>
    cases ha : (p a) with
    | true =>
      simp only [List.find?, ha] at h
      exact Option.noConfusion h
    | false =>
      simp only [List.find?, ha] at h
      simp only [List.cons_append, List.find?, ha]
      exact ih h

theorem permission_ok_project {db : DB} {lvl : String} {a pid : Nat} {project : Project}
    (h : permission_check db lvl a pid = .ok project) :
    findProject db pid = some project := by
  unfold permission_check at h
  split at h
  · exact Except.noConfusion h
  · next project2 heq =>
    split at h
    · injection h with h2
      rw [heq, h2]
    · split at h
      · exact Except.noConfusion h
      · split at h
        · exact Except.noConfusion h
        · injection h with h2
          rw [heq, h2]

/-- Claim C1: in `exA`, task 1 has status `done` and `completed_at = 5`; the
owner updates it to `todo` through `update_task` (PUT `/api/tasks/1` with
body `{"status": "todo"}`).  The status transitions away from `done`, yet
`completed_at` remains `5` — `update_task` only sets the timestamp on
entering `done` and never clears it, while the dedicated
`update_task_status` endpoint (second conjunct) does clear it on the same
transition.  This refutes, on the `update_task` path, the invariant that
leaving `done` nulls `completed_at`. -/
theorem c1_update_task_stale_completed_at :
    findTask (commitOr exA (update_task exA 10 1 statusTodoPayload 99)) 1 =
      some ⟨1, "t", none, 1, 10, none, .todo, .medium, some 5⟩ ∧
    findTask (commitOr exA (update_task_status exA 10 1 .todo 99)) 1 =
      some ⟨1, "t", none, 1, 10, none, .todo, .medium, none⟩ :=
  ⟨rfl, rfl⟩

/-- Claim C2, counterexample: bob (20) holds the `viewer` role in
project 1; the claim says his `update_task_status` request on task 2 fails
with AccessDenied — in fact it dies with the uncaught `NameError` (HTTP
500) raised at the unimported `ProjectMember` in tasks.py, which is not an
AccessDenied rejection. -/
theorem c2_viewer_request_crashes :
    memberLookup exA 1 20 = some ⟨1, 20, .viewer⟩ ∧
    update_task_status exA 20 2 .in_progress 99 = .error .nameError ∧
    Err.nameError ≠ Err.accessDenied :=
  ⟨rfl, rfl, by decide⟩

/-- Claim C3, counterexample: a successful status change through
`update_task` appends a single ActivityLog entry whose action is `updated`
(not `status_changed`), and neither `update_task` nor `update_task_status`
emits any broadcast event — no API endpoint invokes the real-time
service. -/
theorem c3_no_broadcast_and_updated_action :
    (commitOr exA (update_task exA 10 1 statusTodoPayload 99)).log =
      [⟨10, 1, some 1, .updated,
        .changeMap [("status", "TaskStatus.DONE", "TaskStatus.TODO")]⟩] ∧
    (commitOr exA (update_task exA 10 1 statusTodoPayload 99)).broadcasts = [] ∧
    (commitOr exA (update_task_status exA 10 2 .done 99)).broadcasts = [] :=
  ⟨rfl, rfl, rfl⟩

/-- Claim C4, counterexample: tag 5 is scoped to project 2, yet creating a
task in project 1 with `tag_ids = [5]` succeeds and creates the `TaskTag`
row — the creation path performs no scope check. -/
theorem c4_create_task_cross_project_tag :
    findTag exA 5 = some ⟨5, "bug", some 2⟩ ∧
    resultOk (create_task exA 10 ⟨"x", none, 1, none, .todo, .medium, [5]⟩ 7) = true ∧
    (commitOr exA (create_task exA 10 ⟨"x", none, 1, none, .todo, .medium, [5]⟩ 7)).taskTags
      = [⟨1, 5⟩, ⟨2, 6⟩, ⟨7, 5⟩] :=
  ⟨rfl, rfl, rfl⟩

theorem access_crash_of_nonowner {project : Project} {actor : Nat}
    (hown : project.ownerId ≠ actor) :
    tasksModuleAccess project actor = .error .nameError := by
  simp [tasksModuleAccess, bne_iff_ne, hown]

theorem access_ok_of_owner {project : Project} {actor : Nat}
    (hown : project.ownerId = actor) :
    tasksModuleAccess project actor = .ok () := by
  simp [tasksModuleAccess, hown]

/-- Claim C2, amended: every non-owner actor's status-change request —
whether viewer, member, admin, or outsider — fails with the uncaught
`NameError` (HTTP 500) raised at the unimported `ProjectMember` in
tasks.py, not with AccessDenied, and the task is unchanged; only the
project owner can change a task's status. -/
theorem c2_status_access_amended (db : DB) (actor tid : Nat) (s : TaskStatus)
    (now : Nat) (task : Task) (project : Project)
    (hT : findTask db tid = some task)
    (hP : findProject db task.projectId = some project) :
    (project.ownerId ≠ actor →
      update_task_status db actor tid s now = .error .nameError ∧
      complete_task db actor tid now = .error .nameError ∧
      findTask (commitOr db (update_task_status db actor tid s now)) tid = some task) ∧
    (project.ownerId = actor →
      resultOk (update_task_status db actor tid s now) = true) := by
  constructor
  · intro hown
    have hd := access_crash_of_nonowner hown
    have h1 : update_task_status db actor tid s now = .error .nameError := by
      simp [update_task_status, hT, hP, hd]
    have h2 : complete_task db actor tid now = .error .nameError := by
      simp [complete_task, hT, hP, hd]
    refine ⟨h1, h2, ?_⟩
    rw [h1]
    exact hT
  · intro howner
    have hd := access_ok_of_owner howner
    simp [update_task_status, hT, hP, hd, resultOk]

/-- Claim C5: role resolution is total over the five effective roles; the
owner role is resolved exactly when the actor is the project's `owner_id`,
regardless of any membership row; and an owner passes `permission_required`
at every level with the membership table replaced by anything at all (no
membership lookup can influence the outcome). -/
theorem c5_resolve_role_correct (db : DB) (actorId : Nat) (project : Project) :
    (resolve_role db actorId project = .owner ∨ resolve_role db actorId project = .admin ∨
     resolve_role db actorId project = .member ∨ resolve_role db actorId project = .viewer ∨
     resolve_role db actorId project = .noRole) ∧
    (resolve_role db actorId project = .owner ↔ project.ownerId = actorId) ∧
    (project.ownerId = actorId →
      findProject db project.id = some project →
      ∀ lvl ms, permission_check { db with members := ms } lvl actorId project.id
        = .ok project) := by
  refine ⟨?_, ?_, ?_⟩
  · unfold resolve_role
    split
    · exact Or.inl rfl
    · split
      · exact Or.inr (Or.inr (Or.inr (Or.inr rfl)))
      · split
        · exact Or.inr (Or.inl rfl)
        · exact Or.inr (Or.inr (Or.inl rfl))
        · exact Or.inr (Or.inr (Or.inr (Or.inl rfl)))
  · constructor
    · intro h
      unfold resolve_role at h
      split at h
      · next ho => exact eq_of_beq ho
      · exfalso
        split at h
        · exact EffRole.noConfusion h
        · split at h
          · exact EffRole.noConfusion h
          · exact EffRole.noConfusion h
          · exact EffRole.noConfusion h
    · intro h
      have hb : (project.ownerId == actorId) = true := by simp [h]
      simp [resolve_role, hb]
  · intro h hf lvl ms
    have hf2 : findProject { db with members := ms } project.id = some project := hf
    simp [permission_check, hf2, h]

/-- Claim C6: a request failing its access or referential precondition
returns the specific error kind and leaves the entire store — entities,
activity log and broadcast stream — untouched, but the specific error kind
is only returned off the tasks.py module: a non-owner `create_task` request
dies with the uncaught `NameError` (HTTP 500, still zero side effects), a
missing project yields NotFound, and `remove_project_member` (healthy
projects.py) yields CannotRemoveOwner / NotAMember. -/
theorem c6_failed_precondition_no_side_effects (db : DB)
    (actor pid uid newId : Nat) (p : TaskCreatePayload) (project : Project) :
    (findProject db p.projectId = some project → project.ownerId ≠ actor →
      create_task db actor p newId = .error .nameError ∧
      commitOr db (create_task db actor p newId) = db) ∧
    (findProject db p.projectId = none →
      create_task db actor p newId = .error .notFound ∧
      commitOr db (create_task db actor p newId) = db) ∧
    (permission_check db "admin" actor pid = .ok project →
      (uid = project.ownerId →
        remove_project_member db actor pid uid = .error .cannotRemoveOwner ∧
        commitOr db (remove_project_member db actor pid uid) = db) ∧
      (uid ≠ project.ownerId → memberLookup db pid uid = none →
        remove_project_member db actor pid uid = .error .notAMember ∧
        commitOr db (remove_project_member db actor pid uid) = db)) := by
  refine ⟨?_, ?_, ?_⟩
  · intro hf hown
    have hd := access_crash_of_nonowner hown
    have h1 : create_task db actor p newId = .error .nameError := by
      simp [create_task, hf, hd]
    exact ⟨h1, by rw [h1]; rfl⟩
  · intro hf
    have h1 : create_task db actor p newId = .error .notFound := by
      simp [create_task, hf]
    exact ⟨h1, by rw [h1]; rfl⟩
  · intro hpc
    constructor
    · intro he
      have h1 : remove_project_member db actor pid uid = .error .cannotRemoveOwner := by
        simp [remove_project_member, hpc, he]
      exact ⟨h1, by rw [h1]; rfl⟩
    · intro hne hm
      have hbe : (project.ownerId == uid) = false := by
        simp only [beq_eq_false_iff_ne]
        exact fun hc => hne hc.symm
      have h1 : remove_project_member db actor pid uid = .error .notAMember := by
        simp [remove_project_member, hpc, hbe, hm]
      exact ⟨h1, by rw [h1]; rfl⟩

/-- Claim C3, amended: a status change can only succeed for the project
owner (any other actor crashes before committing); a successful
`update_task_status` call appends exactly one ActivityLog entry, of action
`status_changed` with the old and new status values, and emits no broadcast
event; a successful `update_task` call whose only change is the status
appends exactly one entry of action `updated` carrying the status old/new
pair (no `status_changed` entry), and likewise emits no broadcast. -/
theorem c3_status_change_log_amended (db : DB) (actor tid : Nat) (s s2 : TaskStatus)
    (now : Nat) (task : Task) (project : Project)
    (hT : findTask db tid = some task)
    (hP : findProject db task.projectId = some project) :
    (project.ownerId = actor →
      resultOk (update_task_status db actor tid s now) = true ∧
      (commitOr db (update_task_status db actor tid s now)).log =
        db.log ++ [⟨actor, project.id, some task.id, .status_changed,
                    .statusChange task.status.value s.value⟩] ∧
      (commitOr db (update_task_status db actor tid s now)).broadcasts = db.broadcasts) ∧
    (project.ownerId = actor → s2 ≠ task.status →
      (commitOr db (update_task db actor tid ⟨none, none, none, some s2, none, none⟩ now)).log
        = db.log ++ [⟨actor, project.id, some task.id, .updated,
                      .changeMap [("status", task.status.pyStr, s2.pyStr)]⟩] ∧
      (commitOr db (update_task db actor tid ⟨none, none, none, some s2, none, none⟩ now)).broadcasts
        = db.broadcasts) ∧
    (project.ownerId ≠ actor →
      update_task_status db actor tid s now = .error .nameError) := by
  refine ⟨?_, ?_, ?_⟩
  · intro howner
    have hd := access_ok_of_owner howner
    refine ⟨?_, ?_, ?_⟩
    · simp [update_task_status, hT, hP, hd, resultOk]
    · simp [update_task_status, hT, hP, hd, commitOr]
    · simp [update_task_status, hT, hP, hd, commitOr]
  · intro howner hne
    have hd := access_ok_of_owner howner
    have h4 : ¬(task.status = s2) := fun hc => hne hc.symm
    constructor
    · simp [update_task, hT, hP, hd, commitOr, diffField, h4]
    · simp [update_task, hT, hP, hd, commitOr, diffField, h4]
  · intro hown
    have hd := access_crash_of_nonowner hown
    simp [update_task_status, hT, hP, hd]

/-- Claim C4, amended: the tag scope rule is enforced only by the dedicated
add-tags operation — there a project-scoped tag of a different project
fails the whole call with the scope error and no `TaskTag` row is created —
while the tag loops of `create_task` and `update_task` perform no scope
check: on the one path that reaches them (the owner's, every other actor
crashing at the broken access check) they attach the cross-project tag. -/
theorem c4_scope_enforced_only_on_add_path (db : DB)
    (actor tid tagId newId p2 : Nat) (now : Nat) (task : Task) (project : Project)
    (tag : Tag) (cp : TaskCreatePayload)
    (hT : findTask db tid = some task)
    (hP : findProject db task.projectId = some project)
    (hacc : taskEditDenied db project actor = false)
    (hTag : findTag db tagId = some tag)
    (htp : tag.projectId = some p2)
    (hne : p2 ≠ project.id) :
    (add_tag_to_task db actor tid [tagId] = .error .tagScopeMismatch ∧
      (commitOr db (add_tag_to_task db actor tid [tagId])).taskTags = db.taskTags) ∧
    (project.ownerId = actor → findProject db cp.projectId = some project →
      cp.tagIds = [tagId] →
      resultOk (create_task db actor cp newId) = true ∧
      (⟨newId, tagId⟩ : TaskTag) ∈ (commitOr db (create_task db actor cp newId)).taskTags) ∧
    (project.ownerId = actor →
      resultOk (update_task db actor tid ⟨none, none, none, none, none, some [tagId]⟩ now)
        = true ∧
      (⟨tid, tagId⟩ : TaskTag) ∈
        (commitOr db (update_task db actor tid
          ⟨none, none, none, none, none, some [tagId]⟩ now)).taskTags) := by
  have hTag2 : db.tags.find? (fun tg => tg.id == tagId) = some tag := hTag
  refine ⟨?_, ?_, ?_⟩
  · have h1 : add_tag_to_task db actor tid [tagId] = .error .tagScopeMismatch := by
      have hb : (p2 != project.id) = true := by
        simp [bne_iff_ne]
        exact hne
      simp [add_tag_to_task, hT, hP, hacc, addTagsLoop, hTag2, htp, hb]
    exact ⟨h1, by rw [h1]; rfl⟩
  · intro howner hf htags
    have hd := access_ok_of_owner howner
    have hres : create_task db actor cp newId =
        .ok { db with
                tasks := db.tasks ++ [⟨newId, cp.title, cp.description, cp.projectId,
                  actor, cp.assigneeId, cp.status, cp.priority, none⟩],
                taskTags := db.taskTags ++ [⟨newId, tagId⟩],
                log := db.log ++ [⟨actor, project.id, some newId, .created,
                  .taskTitle cp.title⟩] } := by
      simp [create_task, hf, hd, htags, attachAll, hTag2]
    constructor
    · rw [hres]; rfl
    · rw [hres]
      simp [commitOr]
  · intro howner
    have hd := access_ok_of_owner howner
    have hres : update_task db actor tid ⟨none, none, none, none, none, some [tagId]⟩ now =
        .ok { db with
                tasks := db.tasks.map (fun t => if t.id == tid then task else t),
                taskTags := db.taskTags.filter (fun tt => tt.taskId != tid)
                  ++ [⟨tid, tagId⟩],
                log := db.log } := by
      simp [update_task, hT, hP, hd, diffField, attachAll, hTag2]
    constructor
    · rw [hres]; rfl
    · rw [hres]
      simp [commitOr]

/-- Claim C8, amended: the invalid-assignee rejection is unreachable — a
non-owner actor's request dies with `NameError` at the access block before
the assignee is even fetched, and under an owner actor every existing
assignee other than the owner triggers the `NameError` at the unimported
`ProjectMember` in the assignee-membership check (tasks.py:387), with the
task unchanged; the only completable assignment is the owner assigning the
task to the owner, after which a read returns that assignee. -/
theorem c8_assign_membership (db : DB) (actor tid uid : Nat)
    (task : Task) (project : Project) (u : User)
    (hT : findTask db tid = some task)
    (hP : findProject db task.projectId = some project) :
    (project.ownerId ≠ actor →
      assign_task db actor tid uid = .error .nameError ∧
      findTask (commitOr db (assign_task db actor tid uid)) tid = some task) ∧
    (project.ownerId = actor → findUser db uid = some u → uid ≠ project.ownerId →
      assign_task db actor tid uid = .error .nameError ∧
      findTask (commitOr db (assign_task db actor tid uid)) tid = some task) ∧
    (project.ownerId = actor → findUser db uid = some u → uid = project.ownerId →
      resultOk (assign_task db actor tid uid) = true ∧
      findTask (commitOr db (assign_task db actor tid uid)) tid =
        some { task with assigneeId := some uid }) := by
  refine ⟨?_, ?_, ?_⟩
  · intro hown
    have hd := access_crash_of_nonowner hown
    have h1 : assign_task db actor tid uid = .error .nameError := by
      simp [assign_task, hT, hP, hd]
    refine ⟨h1, ?_⟩
    rw [h1]
    exact hT
  · intro howner hU hne
    have hd := access_ok_of_owner howner
    have hd2 := access_crash_of_nonowner (fun hc => hne hc.symm)
    have h1 : assign_task db actor tid uid = .error .nameError := by
      simp [assign_task, hT, hP, hd, hU, hd2]
    refine ⟨h1, ?_⟩
    rw [h1]
    exact hT
  · intro howner hU heq
    have hd := access_ok_of_owner howner
    have hd2 := access_ok_of_owner heq.symm
    have hres : assign_task db actor tid uid =
        .ok { db with
                tasks := db.tasks.map (fun t =>
                  if t.id == tid then { task with assigneeId := some uid } else t),
                log := db.log ++ [⟨actor, project.id, some task.id, .assigned,
                  .assignment u.username (task.assigneeId.map toString)⟩] } := by
      simp [assign_task, hT, hP, hd, hU, hd2]
    constructor
    · rw [hres]; rfl
    · rw [hres]
      exact find_of_replace hT rfl

/-- Claim C9, amended: re-adding an already-attached tag is an idempotent
success — no duplicate row, the `TaskTag` set left exactly as it was —
provided the tag passes the scope check (global, or scoped to the task's
project); an already-attached tag scoped to a different project instead
fails with the scope error. -/
theorem c9_idempotent_amended (db : DB) (actor tid tagId : Nat)
    (task : Task) (project : Project) (tag : Tag)
    (hT : findTask db tid = some task)
    (hP : findProject db task.projectId = some project)
    (hacc : taskEditDenied db project actor = false)
    (hTag : findTag db tagId = some tag)
    (hscope : tag.projectId = none ∨ tag.projectId = some project.id)
    (hmem : db.taskTags.any (fun tt => tt.taskId == tid && tt.tagId == tagId) = true) :
    add_tag_to_task db actor tid [tagId] = .ok db := by
  have hTag2 : db.tags.find? (fun tg => tg.id == tagId) = some tag := hTag
  rcases hscope with h | h <;>
    simp [add_tag_to_task, hT, hP, hacc, addTagsLoop, hTag2, h, hmem]

/-- Claim C10, amended: `create_task` performs no validation of the
assignee — the project owner can create a task assigned to any user, even
one who is neither the owner nor any `ProjectMember`, and the stored task
carries that assignee — but the claim's quantification over every
member-or-better creator fails: any non-owner creator's request crashes
with the uncaught `NameError` at the broken access check before the
assignee is ever handled, so only owner creators can create tasks. -/
theorem c10_create_task_assignee_unchecked (db : DB) (actor newId uid : Nat)
    (p : TaskCreatePayload) (project : Project)
    (hf : findProject db p.projectId = some project)
    (hassignee : p.assigneeId = some uid)
    (hnotowner : project.ownerId ≠ uid)
    (hnotmember : memberLookup db project.id uid = none)
    (htags : p.tagIds = [])
    (hfresh : findTask db newId = none) :
    (project.ownerId = actor →
      resultOk (create_task db actor p newId) = true ∧
      findTask (commitOr db (create_task db actor p newId)) newId =
        some ⟨newId, p.title, p.description, p.projectId, actor, some uid,
              p.status, p.priority, none⟩) ∧
    (project.ownerId ≠ actor →
      create_task db actor p newId = .error .nameError) := by
  constructor
  · intro howner
    have hd := access_ok_of_owner howner
    have hres : create_task db actor p newId =
        .ok { db with
                tasks := db.tasks ++ [⟨newId, p.title, p.description, p.projectId, actor,
                  some uid, p.status, p.priority, none⟩],
                log := db.log ++ [⟨actor, project.id, some newId, .created,
                  .taskTitle p.title⟩] } := by
      simp [create_task, hf, hd, htags, attachAll, hassignee]
    have hfresh2 : db.tasks.find? (fun t => t.id == newId) = none := hfresh
    constructor
    · rw [hres]; rfl
    · rw [hres]
      show (db.tasks ++ [(⟨newId, p.title, p.description, p.projectId, actor, some uid,
        p.status, p.priority, none⟩ : Task)]).find? (fun t => t.id == newId) = _
      rw [find_of_append_none _ _ hfresh2]
      simp [List.find?]
  · intro hown
    have hd := access_crash_of_nonowner hown
    simp [create_task, hf, hd]

theorem any_pair_map_role (ms : List ProjectMember) (pid uid oid : Nat) (r : MemberRole) :
    (ms.map (fun m => if m.projectId == pid && m.userId == uid then { m with role := r }
      else m)).any (fun m => m.projectId == pid && m.userId == oid)
      = ms.any (fun m => m.projectId == pid && m.userId == oid) := by
  induction ms with
  | nil => rfl
  | cons a l ih =>
    simp only [List.map_cons, List.any_cons, ih]
    by_cases ha : (a.projectId == pid && a.userId == uid) = true
    · simp [ha]
    · simp [ha]

theorem any_filter_of_any_false (ms : List ProjectMember) (p q : ProjectMember → Bool)
    (h : ms.any p = false) : (ms.filter q).any p = false := by
  simp only [List.any_eq_false] at h ⊢
  intro x hx
  exact h x (List.mem_filter.mp hx).1

/-- Claim C7: the owner-is-never-a-member invariant.  Removing the owner
fails with the cannot-remove-owner error for every membership-table content;
adding the owner under the invariant (no row for the owner yet) fails with
the cannot-add-owner error; neither operation targeting the owner can ever
succeed; and all three membership operations preserve the invariant. -/
theorem c7_owner_never_member (db : DB) (pid : Nat) (role : MemberRole)
    (project : Project) (u : User)
    (hfind : findProject db pid = some project)
    (hu : findUser db project.ownerId = some u) :
    (∀ ms, remove_project_member { db with members := ms } project.ownerId pid
        project.ownerId = .error .cannotRemoveOwner) ∧
    (memberLookup db pid project.ownerId = none →
      ∀ actor, permission_check db "admin" actor pid = .ok project →
        add_project_member db actor pid project.ownerId role = .error .cannotAddOwner) ∧
    (∀ actor, resultOk (add_project_member db actor pid project.ownerId role) = false) ∧
    (∀ actor, resultOk (remove_project_member db actor pid project.ownerId) = false) ∧
    (∀ actor uid r2, ownerAbsent db pid project.ownerId = true →
      ownerAbsent (commitOr db (add_project_member db actor pid uid r2)) pid
        project.ownerId = true ∧
      ownerAbsent (commitOr db (update_member_role db actor pid uid r2)) pid
        project.ownerId = true ∧
      ownerAbsent (commitOr db (remove_project_member db actor pid uid)) pid
        project.ownerId = true) := by
  have projEq : ∀ {actor : Nat} {pr : Project},
      permission_check db "admin" actor pid = .ok pr → pr = project := by
    intro actor pr hpc
    have h2 := permission_ok_project hpc
    rw [hfind] at h2
    injection h2 with h3
    exact h3.symm
  refine ⟨?_, ?_, ?_, ?_, ?_⟩
  · intro ms
    have hf2 : findProject { db with members := ms } pid = some project := hfind
    simp [remove_project_member, permission_check, hf2]
  · intro hmem actor hpc
    simp [add_project_member, hpc, hu, hmem]
  · intro actor
    cases hpc : permission_check db "admin" actor pid with
    | error e => simp [add_project_member, hpc, resultOk]
    | ok pr =>
      have h2 := projEq hpc
      rw [h2] at hpc
      cases hm : (memberLookup db pid project.ownerId).isSome with
      | true => simp [add_project_member, hpc, hu, hm, resultOk]
      | false => simp [add_project_member, hpc, hu, hm, resultOk]
  · intro actor
    cases hpc : permission_check db "admin" actor pid with
    | error e => simp [remove_project_member, hpc, resultOk]
    | ok pr =>
      have h2 := projEq hpc
      rw [h2] at hpc
      simp [remove_project_member, hpc, resultOk]
  · intro actor uid r2 hinv
    refine ⟨?_, ?_, ?_⟩
    · cases hpc : permission_check db "admin" actor pid with
      | error e => simpa [add_project_member, hpc, commitOr] using hinv
      | ok pr =>
        have h2 := projEq hpc
        rw [h2] at hpc
        cases hu2 : findUser db uid with
        | none => simpa [add_project_member, hpc, hu2, commitOr] using hinv
        | some u2 =>
          cases hm : (memberLookup db pid uid).isSome with
          | true => simpa [add_project_member, hpc, hu2, hm, commitOr] using hinv
          | false =>
            cases hq : (project.ownerId == uid) with
            | true => simpa [add_project_member, hpc, hu2, hm, hq, commitOr] using hinv
            | false =>
              have huid : (uid == project.ownerId) = false := by
                simp only [beq_eq_false_iff_ne] at hq ⊢
                exact fun hc => hq hc.symm
              have hres : add_project_member db actor pid uid r2 =
                  .ok { db with members := db.members ++ [⟨pid, uid, r2⟩] } := by
                simp [add_project_member, hpc, hu2, hm, hq]
              rw [hres]
              show ownerAbsent { db with members := db.members ++ [⟨pid, uid, r2⟩] }
                pid project.ownerId = true
              have hx : ([(⟨pid, uid, r2⟩ : ProjectMember)].any
                  (fun m => m.projectId == pid && m.userId == project.ownerId)) = false := by
                simp [huid]
              unfold ownerAbsent at hinv ⊢
              rw [List.any_append, hx, Bool.or_false]
              exact hinv
    · cases hpc : permission_check db "admin" actor pid with
      | error e => simpa [update_member_role, hpc, commitOr] using hinv
      | ok pr =>
        cases hm : memberLookup db pid uid with
        | none => simpa [update_member_role, hpc, hm, commitOr] using hinv
        | some m =>
          have hres : update_member_role db actor pid uid r2 =
              .ok { db with members := db.members.map (fun m2 =>
                if m2.projectId == pid && m2.userId == uid then { m2 with role := r2 }
                else m2) } := by
            simp [update_member_role, hpc, hm]
          rw [hres]
          simp only [commitOr, ownerAbsent] at hinv ⊢
          rw [any_pair_map_role]
          exact hinv
    · cases hpc : permission_check db "admin" actor pid with
      | error e => simpa [remove_project_member, hpc, commitOr] using hinv
      | ok pr =>
        cases hq : (pr.ownerId == uid) with
        | true => simpa [remove_project_member, hpc, hq, commitOr] using hinv
        | false =>
          cases hm : memberLookup db pid uid with
          | none => simpa [remove_project_member, hpc, hq, hm, commitOr] using hinv
          | some m =>
            have hres : remove_project_member db actor pid uid =
                .ok { db with members := db.members.filter (fun m2 =>
                  !(m2.projectId == pid && m2.userId == uid)) } := by
              simp [remove_project_member, hpc, hq, hm]
            rw [hres]
            simp only [commitOr, ownerAbsent, Bool.not_eq_true'] at hinv ⊢
            exact any_filter_of_any_false _ _ _ hinv

/-- Claim C9, counterexample: tag 5 (scoped to project 2) is already
attached to task 1 (which lives in project 1) — a state reachable through
`create_task`, which skips the scope check.  Re-requesting the attachment
does not return success: the scope check fires before the duplicate check
and the call fails. -/
theorem c9_attached_mismatched_tag_errors :
    (⟨1, 5⟩ : TaskTag) ∈ exA.taskTags ∧
    add_tag_to_task exA 10 1 [5] = .error .tagScopeMismatch :=
  ⟨by decide, rfl⟩

/-- Claim C6, counterexample: dave (40) is not a member of project 1 and
attempts to create a task in it — the spec scenario demands AccessDenied,
but the request dies with the uncaught `NameError` (HTTP 500) raised at the
unimported `ProjectMember` in tasks.py. -/
theorem c6_create_task_crashes_not_denied :
    memberLookup exA 1 40 = none ∧
    create_task exA 40 ⟨"x", none, 1, none, .todo, .medium, []⟩ 7 = .error .nameError ∧
    Err.nameError ≠ Err.accessDenied :=
  ⟨rfl, rfl, by decide⟩

/-- Claim C8, counterexample: carol (30) is a member of project 1, yet the
owner's request to assign task 2 to her crashes with `NameError` instead of
succeeding; dave (40), not a member, also yields `NameError` rather than
the invalid-assignee error the claim requires. -/
theorem c8_assign_crashes :
    memberLookup exA 1 30 = some ⟨1, 30, .member⟩ ∧
    assign_task exA 10 2 30 = .error .nameError ∧
    assign_task exA 10 2 40 = .error .nameError ∧
    Err.nameError ≠ Err.invalidAssignee :=
  ⟨rfl, rfl, rfl, by decide⟩

/-- Claim C10, counterexample: carol (30) holds the `member` role in
project 1, so the claim says her `create_task` request assigning dave (40)
succeeds — in fact it crashes with `NameError` at the access check. -/
theorem c10_member_creator_crashes :
    memberLookup exA 1 30 = some ⟨1, 30, .member⟩ ∧
    create_task exA 30 ⟨"x", none, 1, some 40, .todo, .medium, []⟩ 7 = .error .nameError :=
  ⟨rfl, rfl⟩

/-- Witness for C2: dave (40), a non-owner, crashes with the `NameError`
500; owner alice (10) succeeds. -/
theorem c2_status_access_witness :
    update_task_status exA 40 2 .done 7 = .error .nameError ∧
    resultOk (update_task_status exA 10 2 .done 7) = true := by
  constructor
  · exact ((c2_status_access_amended exA 40 2 .done 7
      ⟨2, "u", none, 1, 10, none, .todo, .medium, none⟩ ⟨1, 10, false⟩ rfl rfl).1
      (by decide)).1
  · exact (c2_status_access_amended exA 10 2 .done 7
      ⟨2, "u", none, 1, 10, none, .todo, .medium, none⟩ ⟨1, 10, false⟩ rfl rfl).2 rfl

/-- Witness for C3: the owner's concrete status changes through both
endpoints, with the exact log rows they append. -/
theorem c3_status_change_log_witness :
    (commitOr exA (update_task_status exA 10 2 .done 7)).log =
      [⟨10, 1, some 2, .status_changed, .statusChange "todo" "done"⟩] ∧
    (commitOr exA (update_task exA 10 2 ⟨none, none, none, some .review, none, none⟩ 7)).log
      = [⟨10, 1, some 2, .updated,
          .changeMap [("status", "TaskStatus.TODO", "TaskStatus.REVIEW")]⟩] := by
  constructor
  · exact ((c3_status_change_log_amended exA 10 2 .done .review 7
      ⟨2, "u", none, 1, 10, none, .todo, .medium, none⟩ ⟨1, 10, false⟩ rfl rfl).1 rfl).2.1
  · exact ((c3_status_change_log_amended exA 10 2 .done .review 7
      ⟨2, "u", none, 1, 10, none, .todo, .medium, none⟩ ⟨1, 10, false⟩ rfl rfl).2.1 rfl
      (by decide)).1

/-- Witness for C4: the dedicated add-tags call rejects the cross-project
tag 5, while the owner's `create_task` and `update_task` both attach it. -/
theorem c4_scope_check_witness :
    add_tag_to_task exA 10 1 [5] = .error .tagScopeMismatch ∧
    (⟨7, 5⟩ : TaskTag) ∈
      (commitOr exA (create_task exA 10 ⟨"x", none, 1, none, .todo, .medium, [5]⟩ 7)).taskTags ∧
    (⟨1, 5⟩ : TaskTag) ∈
      (commitOr exA (update_task exA 10 1
        ⟨none, none, none, none, none, some [5]⟩ 9)).taskTags := by
  refine ⟨?_, ?_, ?_⟩
  · exact (c4_scope_enforced_only_on_add_path exA 10 1 5 7 2 9
      ⟨1, "t", none, 1, 10, none, .done, .medium, some 5⟩ ⟨1, 10, false⟩
      ⟨5, "bug", some 2⟩ ⟨"x", none, 1, none, .todo, .medium, [5]⟩
      rfl rfl rfl rfl rfl (by decide)).1.1
  · exact ((c4_scope_enforced_only_on_add_path exA 10 1 5 7 2 9
      ⟨1, "t", none, 1, 10, none, .done, .medium, some 5⟩ ⟨1, 10, false⟩
      ⟨5, "bug", some 2⟩ ⟨"x", none, 1, none, .todo, .medium, [5]⟩
      rfl rfl rfl rfl rfl (by decide)).2.1 rfl rfl rfl).2
  · exact ((c4_scope_enforced_only_on_add_path exA 10 1 5 7 2 9
      ⟨1, "t", none, 1, 10, none, .done, .medium, some 5⟩ ⟨1, 10, false⟩
      ⟨5, "bug", some 2⟩ ⟨"x", none, 1, none, .todo, .medium, [5]⟩
      rfl rfl rfl rfl rfl (by decide)).2.2 rfl).2

/-- Witness for C5: alice (10) resolves to owner of project 1 and passes the
admin-level permission check with an empty membership table. -/
theorem c5_resolve_role_witness :
    resolve_role exA 10 ⟨1, 10, false⟩ = .owner ∧
    permission_check { exA with members := [] } "admin" 10 1 = .ok ⟨1, 10, false⟩ := by
  constructor
  · exact (c5_resolve_role_correct exA 10 ⟨1, 10, false⟩).2.1.mpr rfl
  · exact (c5_resolve_role_correct exA 10 ⟨1, 10, false⟩).2.2 rfl rfl "admin" []

/-- Witness for C6: dave (40) crashes with the `NameError` 500 when
creating a task; a missing project yields NotFound; removing the owner and
removing a non-member fail with their specific errors. -/
theorem c6_no_side_effects_witness :
    create_task exA 40 ⟨"x", none, 1, none, .todo, .medium, []⟩ 7 = .error .nameError ∧
    create_task exA 10 ⟨"x", none, 3, none, .todo, .medium, []⟩ 7 = .error .notFound ∧
    remove_project_member exA 10 1 10 = .error .cannotRemoveOwner ∧
    remove_project_member exA 10 1 40 = .error .notAMember := by
  refine ⟨?_, ?_, ?_, ?_⟩
  · exact ((c6_failed_precondition_no_side_effects exA 40 1 0 7
      ⟨"x", none, 1, none, .todo, .medium, []⟩ ⟨1, 10, false⟩).1 rfl (by decide)).1
  · exact ((c6_failed_precondition_no_side_effects exA 10 1 0 7
      ⟨"x", none, 3, none, .todo, .medium, []⟩ ⟨1, 10, false⟩).2.1 rfl).1
  · exact (((c6_failed_precondition_no_side_effects exA 10 1 10 7
      ⟨"x", none, 1, none, .todo, .medium, []⟩ ⟨1, 10, false⟩).2.2 rfl).1 rfl).1
  · exact (((c6_failed_precondition_no_side_effects exA 10 1 40 7
      ⟨"x", none, 1, none, .todo, .medium, []⟩ ⟨1, 10, false⟩).2.2 rfl).2
      (by decide) rfl).1

/-- Witness for C7: concrete owner-protection failures and invariant
preservation on project 1. -/
theorem c7_owner_never_member_witness :
    remove_project_member exA 10 1 10 = .error .cannotRemoveOwner ∧
    add_project_member exA 10 1 10 .member = .error .cannotAddOwner ∧
    ownerAbsent (commitOr exA (add_project_member exA 10 1 40 .member)) 1 10 = true := by
  have h := c7_owner_never_member exA 1 .member ⟨1, 10, false⟩ ⟨10, "alice"⟩ rfl rfl
  refine ⟨?_, ?_, ?_⟩
  · exact h.1 exA.members
  · exact h.2.1 rfl 10 rfl
  · exact (h.2.2.2.2 10 40 .member rfl).1

/-- Witness for C8: carol (30), a member, cannot act (crash) and cannot be
assigned by the owner (crash); the owner assigning the task to themself is
the one completable assignment and reads back. -/
theorem c8_assign_membership_witness :
    assign_task exA 30 2 30 = .error .nameError ∧
    assign_task exA 10 2 40 = .error .nameError ∧
    findTask (commitOr exA (assign_task exA 10 2 10)) 2 =
      some ⟨2, "u", none, 1, 10, some 10, .todo, .medium, none⟩ := by
  refine ⟨?_, ?_, ?_⟩
  · exact ((c8_assign_membership exA 30 2 30
      ⟨2, "u", none, 1, 10, none, .todo, .medium, none⟩ ⟨1, 10, false⟩ ⟨30, "carol"⟩
      rfl rfl).1 (by decide)).1
  · exact ((c8_assign_membership exA 10 2 40
      ⟨2, "u", none, 1, 10, none, .todo, .medium, none⟩ ⟨1, 10, false⟩ ⟨40, "dave"⟩
      rfl rfl).2.1 rfl rfl (by decide)).1
  · exact ((c8_assign_membership exA 10 2 10
      ⟨2, "u", none, 1, 10, none, .todo, .medium, none⟩ ⟨1, 10, false⟩ ⟨10, "alice"⟩
      rfl rfl).2.2 rfl rfl rfl).2

/-- Witness for C9: re-adding the already-attached global tag 6 to task 2
returns success with the store unchanged. -/
theorem c9_idempotent_witness : add_tag_to_task exA 10 2 [6] = .ok exA :=
  c9_idempotent_amended exA 10 2 6
    ⟨2, "u", none, 1, 10, none, .todo, .medium, none⟩ ⟨1, 10, false⟩ ⟨6, "chore", none⟩
    rfl rfl rfl rfl (Or.inl rfl) rfl

/-- Witness for C10: the owner creating a task assigned to dave (40), who
is neither owner nor member, succeeds and the stored task carries assignee
40; member carol (30) attempting the same crashes. -/
theorem c10_create_task_assignee_witness :
    resultOk (create_task exA 10 ⟨"x", none, 1, some 40, .todo, .medium, []⟩ 7) = true ∧
    findTask (commitOr exA (create_task exA 10 ⟨"x", none, 1, some 40, .todo, .medium, []⟩ 7)) 7
      = some ⟨7, "x", none, 1, 10, some 40, .todo, .medium, none⟩ ∧
    create_task exA 30 ⟨"x", none, 1, some 40, .todo, .medium, []⟩ 7 = .error .nameError := by
  refine ⟨?_, ?_, ?_⟩
  · exact ((c10_create_task_assignee_unchecked exA 10 7 40
      ⟨"x", none, 1, some 40, .todo, .medium, []⟩ ⟨1, 10, false⟩
      rfl rfl (by decide) rfl rfl rfl).1 rfl).1
  · exact ((c10_create_task_assignee_unchecked exA 10 7 40
      ⟨"x", none, 1, some 40, .todo, .medium, []⟩ ⟨1, 10, false⟩
      rfl rfl (by decide) rfl rfl rfl).1 rfl).2
  · exact (c10_create_task_assignee_unchecked exA 30 7 40
      ⟨"x", none, 1, some 40, .todo, .medium, []⟩ ⟨1, 10, false⟩
      rfl rfl (by decide) rfl rfl rfl).2 (by decide)

end TaskApp
